import Mathlib

/-!
Verification development for the terminal typing subsystem of the `dnc`
portfolio repository: a shallow embedding of
`src/scripts/js/terminal/typing-engine.js` (class `TypingEngine`) and
`src/scripts/js/terminal/terminal-controller.js` (class `TerminalController`),
together with theorems about the embedded operations.

Modelling conventions:
- JavaScript strings rendered into the output sink are modelled as `List Char`
  (the DOM `textContent` of the output element).
- JavaScript numbers used for delays and probability thresholds are modelled
  as `ℚ` (no claim in scope depends on binary floating-point rounding).
- `Math.random()` draws are supplied by an oracle `Nat → Draw`; the engine
  state carries a counter of draws consumed so far.  `Math.random()` always
  returns a value in `[0, 1)`.
- The single-threaded JavaScript event loop is modelled explicitly: at most
  one `setTimeout` callback is outstanding per engine (`currentTimeout`), and
  advancing time past the next timeout is the function `fireTimeout`.
  A cleared timeout (`clearTimeout`) never fires.
- Sound cues are fire-and-forget calls into the external SoundCue
  collaborator; the state records the sequence of cue call sites reached
  (whether they are audible is the collaborator concern).
- Promise resolution of a `typeText` run is tracked by the `resolved` flag:
  `typeText` registers its `resolve` as `onComplete`, and `_completeTyping`
  invokes `onComplete`.
-/

namespace Dnc

/-- The four sound-cue call sites of `TypingEngine` plus the completion cue. -/
inductive Cue
  | keypress
  | backspace
  | enter
  | complete
deriving Repr, DecidableEq

/-- Constructor options of `TypingEngine` (typing-engine.js lines 9-17),
with the source defaults. -/
structure TypingOptions where
  baseSpeed : ℚ := 50
  speedVariation : ℚ := 30
  pauseChance : ℚ := 1/10
  pauseDuration : ℚ := 200
  errorChance : ℚ := 1/50
  errorCorrectDelay : ℚ := 500
deriving Repr, DecidableEq

/-- One bundle of `Math.random()` results consumed by one `_typeCharacters`
character step: the speed-variation draw (line 65), the pause-chance draw
(line 83), the error-chance draw (line 88) and the wrong-character draw
(line 113, used only when the error branch is taken). -/
structure Draw where
  rSpeed : ℚ
  rPause : ℚ
  rError : ℚ
  rWrong : ℚ
deriving Repr, DecidableEq

/-- A source of `Math.random()` results, indexed by the number of character
steps taken so far. -/
abbrev Oracle := Nat → Draw

/-- The callback shapes stored in `this.currentTimeout`; each records the
closure data it captured and the delay it was scheduled with:
`typeStep` is the next `_typeCharacters(text, index)` call (line 105),
`errBackspace` is the backspace phase of `_simulateError` (line 121) and
`errCorrect` is its retype phase (line 129). -/
inductive Pending
  | typeStep (text : List Char) (index : Nat) (delay : ℚ)
  | errBackspace (text : List Char) (index : Nat) (baseSpeed : ℚ) (delay : ℚ)
  | errCorrect (text : List Char) (index : Nat) (baseSpeed : ℚ) (delay : ℚ)
deriving Repr, DecidableEq

/-- The mutable state of one `TypingEngine` instance together with the
output sink it writes to.  `output` is `outputElement.textContent`,
`language` the language class tag, `targetText` the `this.targetText`
field (assigned only by `typeWithCursor`), `resolved` whether the promise
of the current `typeText` run has been resolved, `cues` the sequence of
sound-cue call sites reached, and `rand` the number of oracle draws
consumed. -/
structure EngineState where
  opts : TypingOptions
  isTyping : Bool
  isPaused : Bool
  currentTimeout : Option Pending
  output : List Char
  language : String
  targetText : Option (List Char)
  resolved : Bool
  cues : List Cue
  rand : Nat
deriving Repr, DecidableEq

/-- The wrong-character pool of `_simulateError` (line 112). -/
def wrongChars : List Char := "qwertyuiopasdfghjklzxcvbnm".toList

/-- `wrongChars[Math.floor(Math.random() * wrongChars.length)]` (line 113);
the index is in range because `Math.random()` lies in `[0, 1)`. -/
def wrongCharOf (r : ℚ) : Char :=
  wrongChars.getD (Int.toNat ⌊r * 26⌋) 'q'

/-- The class-dependent speed factor of `_typeCharacters` (lines 69-80):
newline ×2, space ×1.5, the punctuation class ×2, an ASCII uppercase
letter ×1.2, anything else ×1. -/
def charClassFactor (c : Char) : ℚ :=
  if c = '\n' then 2
  else if c = ' ' then 3/2
  else if c = '.' ∨ c = '!' ∨ c = '?' ∨ c = ';' then 2
  else if 'A' ≤ c ∧ c ≤ 'Z' then 6/5
  else 1

/-- The sound cues fired during the same classification chain (lines 69-80):
the newline branch calls `_playEnterSound`, the space, punctuation and
uppercase branches call nothing, and only the final `else` branch calls
`_playKeypressSound`. -/
def classCues (c : Char) : List Cue :=
  if c = '\n' then [Cue.enter]
  else if c = ' ' then []
  else if c = '.' ∨ c = '!' ∨ c = '?' ∨ c = ';' then []
  else if 'A' ≤ c ∧ c ≤ 'Z' then []
  else [Cue.keypress]

/-- The delay computed for one character step: `baseSpeed` plus the random
variation (line 65-66), times the class factor, plus `pauseDuration` when
the pause-chance draw hits (lines 83-85). -/
def stepSpeed (o : TypingOptions) (d : Draw) (c : Char) : ℚ :=
  let sp := (o.baseSpeed + (d.rSpeed - 1/2) * o.speedVariation) * charClassFactor c
  if d.rPause < o.pauseChance then sp + o.pauseDuration else sp

/-- `_completeTyping` (lines 171-185): clears `isTyping`, fires the
completion cue, and invokes `onComplete` — which is the `resolve` of the
current `typeText` promise (assigned at line 39). -/
def completeTyping (s : EngineState) : EngineState :=
  { s with isTyping := false, cues := s.cues ++ [Cue.complete], resolved := true }

/-- The synchronous part of `_simulateError` (lines 110-121): append the
wrong character, fire the keypress cue, and schedule the backspace phase
after `errorCorrectDelay`. -/
def simulateError (text : List Char) (index : Nat) (baseSpeed : ℚ) (wrongChar : Char)
    (s : EngineState) : EngineState :=
  { s with output := s.output ++ [wrongChar],
           cues := s.cues ++ [Cue.keypress],
           currentTimeout := some (Pending.errBackspace text index baseSpeed s.opts.errorCorrectDelay) }

/-- The body of `_typeCharacters` past its guards (lines 61-107): consume a
draw, fire the classification cue, then either enter error simulation
(when the error draw hits and the character is not a newline, lines 88-91)
or append the character and schedule the next step (lines 94-107). -/
def processChar (ω : Oracle) (text : List Char) (index : Nat) (s : EngineState) : EngineState :=
  let char := text.getD index ' '
  let d := ω s.rand
  let s1 : EngineState := { s with rand := s.rand + 1, cues := s.cues ++ classCues char }
  if d.rError < s.opts.errorChance ∧ char ≠ '\n' then
    simulateError text index (stepSpeed s.opts d char) (wrongCharOf d.rWrong) s1
  else
    { s1 with output := s1.output ++ [char],
              currentTimeout := some (Pending.typeStep text (index + 1) (stepSpeed s.opts d char)) }

/-- `_typeCharacters(text, index)` (lines 51-108): return when not typing or
paused (line 52), complete when the index has reached the end (line 56),
otherwise process the character at `index`. -/
def typeCharacters (ω : Oracle) (text : List Char) (index : Nat) (s : EngineState) : EngineState :=
  if s.isTyping = false ∨ s.isPaused = true then s
  else if text.length ≤ index then completeTyping s
  else processChar ω text index s

/-- Advancing the event loop past the next engine timeout.  A fired
`typeStep` callback re-enters `_typeCharacters`; the `_simulateError`
callbacks (lines 121-139) carry no typing/paused guard: the backspace phase
drops the last output character (`slice(0, -1)`), fires the backspace cue
and schedules the retype phase; the retype phase appends the correct
character, fires the keypress cue and schedules the next `typeStep`
after 100 ms.  With no outstanding timeout nothing happens. -/
def fireTimeout (ω : Oracle) (s : EngineState) : EngineState :=
  match s.currentTimeout with
  | none => s
  | some (Pending.typeStep text index _) =>
      typeCharacters ω text index { s with currentTimeout := none }
  | some (Pending.errBackspace text index baseSpeed _) =>
      { s with output := s.output.dropLast,
               cues := s.cues ++ [Cue.backspace],
               currentTimeout := some (Pending.errCorrect text index baseSpeed 100) }
  | some (Pending.errCorrect text index baseSpeed _) =>
      { s with output := s.output ++ [text.getD index ' '],
               cues := s.cues ++ [Cue.keypress],
               currentTimeout := some (Pending.typeStep text (index + 1) baseSpeed) }

/-- `typeText(text, language)` (lines 30-49).  The promise executor runs
synchronously: when a session is already active it rejects with
`Error('Already typing')` and returns with `this` untouched; otherwise it
activates the session, registers the promise `resolve`/`reject` as
`onComplete`/`onError`, clears the output, sets the language tag and runs
the first `_typeCharacters(text, 0)` step.  The second component is the
synchronous rejection, if any; the first is the engine state when the call
returns. -/
def typeText (s : EngineState) (ω : Oracle) (text : List Char) (language : String) :
    EngineState × Option String :=
  if s.isTyping = true then (s, some "Already typing")
  else
    (typeCharacters ω text 0
      { s with isTyping := true, isPaused := false, resolved := false,
               output := [], language := language }, none)

/-- `pause()` (lines 188-196): when typing, set the paused flag and clear
any scheduled timeout. -/
def pause (s : EngineState) : EngineState :=
  if s.isTyping = true then { s with isPaused := true, currentTimeout := none } else s

/-- `resume()` (lines 198-208): when typing and paused, clear the paused
flag, then continue `_typeCharacters` on `this.targetText || ''` from the
current output length — but only when the output is shorter than that
text.  Note that `targetText` is assigned by `typeWithCursor` only, never
by `typeText`. -/
def resume (ω : Oracle) (s : EngineState) : EngineState :=
  if s.isTyping = true ∧ s.isPaused = true then
    let fullText := s.targetText.getD []
    if s.output.length < fullText.length then
      typeCharacters ω fullText s.output.length { s with isPaused := false }
    else { s with isPaused := false }
  else s

/-- `stop()` (lines 210-217): deactivate the session and clear any
scheduled timeout.  The promise of an interrupted run is left pending. -/
def stop (s : EngineState) : EngineState :=
  { s with isTyping := false, isPaused := false, currentTimeout := none }

/-- `typeWithCursor(text, language)` (lines 285-288): record `targetText`,
then delegate to `typeText`. -/
def typeWithCursor (s : EngineState) (ω : Oracle) (text : List Char) (language : String) :
    EngineState × Option String :=
  typeText { s with targetText := some text } ω text language

/-- A freshly constructed engine with the given options (constructor,
lines 7-28). -/
def newEngine (o : TypingOptions) : EngineState :=
  { opts := o, isTyping := false, isPaused := false, currentTimeout := none,
    output := [], language := "", targetText := none, resolved := false,
    cues := [], rand := 0 }

/-! ## TerminalController (terminal-controller.js) -/

/-- One code snippet record (code-snippets.js); the code text is the
character list the engine renders. -/
structure Snippet where
  id : String
  title : String
  language : String
  code : List Char
deriving Repr, DecidableEq

/-- The CSS state classes applied by `setState` (line 351). -/
inductive Phase
  | idle
  | typing
  | paused
  | completed
  | error
deriving Repr, DecidableEq

/-- A JavaScript number as used for `currentSnippetIndex`: an integer, or
NaN (produced by `x % 0`). -/
inductive JsNum
  | int (n : ℤ)
  | nan
deriving Repr, DecidableEq

/-- JavaScript addition on the index. -/
def jsAdd : JsNum → ℤ → JsNum
  | JsNum.int a, b => JsNum.int (a + b)
  | JsNum.nan, _ => JsNum.nan

/-- JavaScript subtraction on the index. -/
def jsSub : JsNum → ℤ → JsNum
  | JsNum.int a, b => JsNum.int (a - b)
  | JsNum.nan, _ => JsNum.nan

/-- The JavaScript remainder operator on the index.  `x % 0` is NaN, and
NaN propagates; every dividend produced by the controller is nonnegative,
where the JavaScript remainder agrees with `Int.emod`. -/
def jsMod : JsNum → ℤ → JsNum
  | JsNum.int a, b => if b = 0 then JsNum.nan else JsNum.int (a % b)
  | JsNum.nan, _ => JsNum.nan

/-- `this.snippets[i]`: an integer index within bounds selects the snippet;
a negative, out-of-range or NaN index yields `undefined`. -/
def snippetAt (l : List Snippet) : JsNum → Option Snippet
  | JsNum.int n => if n < 0 then none else l.get? n.toNat
  | JsNum.nan => none

/-- Constructor options of `TerminalController` (lines 9-16), with the
source defaults. -/
structure CtrlOptions where
  autoStart : Bool := true
  autoRotate : Bool := true
  rotateInterval : ℚ := 30000
  typingSpeed : ℚ := 60
  waitAfterComplete : ℚ := 5000
deriving Repr, DecidableEq

/-- The mutable state of one `TerminalController` together with its engine.
The timer fields hold the delay a timer was scheduled with, or `none` when
no timer is outstanding; `phase` is the state class last applied by
`setState`.  Title, status text and the other UI updates are display-only
and not modelled. -/
structure CtrlState where
  opts : CtrlOptions
  snippets : List Snippet
  currentSnippetIndex : JsNum
  isTyping : Bool
  isPaused : Bool
  isUserInteracting : Bool
  autoRotateTimer : Option ℚ
  typingCompleteTimer : Option ℚ
  phase : Phase
  engine : EngineState
deriving Repr, DecidableEq

/-- `clearRotationTimers` (lines 214-223): cancel both rotation timers. -/
def clearRotationTimers (c : CtrlState) : CtrlState :=
  { c with autoRotateTimer := none, typingCompleteTimer := none }

/-- `typeCurrentSnippet` (lines 164-188).  A missing snippet at the current
index returns at once.  Otherwise the controller marks itself typing, sets
the typing state class, updates the title (display-only), clears the
output element, and calls `typingEngine.typeText`.  When that call rejects
synchronously, the `catch` sets the error state class and the `finally`
clears the typing flag (both run on the following microtask, before any
timer); on success the session is in flight and the flag stays set until
the promise settles. -/
def typeCurrentSnippet (ω : Oracle) (c : CtrlState) : CtrlState :=
  match snippetAt c.snippets c.currentSnippetIndex with
  | none => c
  | some sn =>
    let c1 : CtrlState := { c with isTyping := true, phase := Phase.typing,
                                   engine := { c.engine with output := [] } }
    let r := typeText c1.engine ω sn.code sn.language
    match r.2 with
    | some _ => { c1 with engine := r.1, phase := Phase.error, isTyping := false }
    | none => { c1 with engine := r.1 }

/-- `nextSnippet` (lines 269-275): clear the rotation timers, advance the
index by one modulo the snippet count, retype. -/
def nextSnippet (ω : Oracle) (c : CtrlState) : CtrlState :=
  let c1 := clearRotationTimers c
  let idx := jsMod (jsAdd c1.currentSnippetIndex 1) (c1.snippets.length : ℤ)
  typeCurrentSnippet ω { c1 with currentSnippetIndex := idx }

/-- `previousSnippet` (lines 277-285): clear the rotation timers, step the
index back with wrap-around from 0 to `length - 1`, retype. -/
def previousSnippet (ω : Oracle) (c : CtrlState) : CtrlState :=
  let c1 := clearRotationTimers c
  let idx := if c1.currentSnippetIndex = JsNum.int 0 then
    JsNum.int ((c1.snippets.length : ℤ) - 1)
  else jsSub c1.currentSnippetIndex 1
  typeCurrentSnippet ω { c1 with currentSnippetIndex := idx }

/-- `setSnippet(index)` (lines 419-425): only an index with
`index >= 0 && index < this.snippets.length` clears the timers, sets the
index and retypes; any other index leaves the controller untouched. -/
def setSnippet (ω : Oracle) (c : CtrlState) (index : ℤ) : CtrlState :=
  if 0 ≤ index ∧ index < (c.snippets.length : ℤ) then
    typeCurrentSnippet ω
      { (clearRotationTimers c) with currentSnippetIndex := JsNum.int index }
  else c

/-- `startDemo` (lines 147-162).  With no snippets it logs a warning and
returns; otherwise it plays the startup cue (fire-and-forget, external)
and types the current snippet.  The second component is the error
surfaced to the caller, if any; the body contains no `throw`, and engine
rejections are swallowed by the `catch` inside `typeCurrentSnippet`. -/
def startDemo (ω : Oracle) (c : CtrlState) : CtrlState × Option String :=
  if c.snippets.length = 0 then (c, none)
  else (typeCurrentSnippet ω c, none)

/-- `scheduleNextRotation` (lines 201-211): clear existing timers, then
schedule the post-completion hold timer only when auto-rotation is on and
the controller is neither interacting nor paused. -/
def scheduleNextRotation (c : CtrlState) : CtrlState :=
  let c1 := clearRotationTimers c
  if c1.opts.autoRotate = true ∧ c1.isUserInteracting = false ∧ c1.isPaused = false then
    { c1 with typingCompleteTimer := some c1.opts.waitAfterComplete }
  else c1

/-- `onTypingComplete` (lines 190-198): set the completed state class and
schedule the next rotation. -/
def ctrlTypingComplete (c : CtrlState) : CtrlState :=
  scheduleNextRotation { c with phase := Phase.completed }

/-- Advancing the event loop past the hold timer of
`scheduleNextRotation`: when it is outstanding its callback consumes the
handle and runs `nextSnippet`; otherwise nothing happens. -/
def fireHoldTimer (ω : Oracle) (c : CtrlState) : CtrlState :=
  match c.typingCompleteTimer with
  | none => c
  | some _ => nextSnippet ω { c with typingCompleteTimer := none }

/-- `pauseDemo` (lines 314-320): set the paused flag, pause the engine,
cancel the rotation timers and set the paused state class. -/
def pauseDemo (c : CtrlState) : CtrlState :=
  let c1 : CtrlState := { c with isPaused := true, engine := pause c.engine }
  { (clearRotationTimers c1) with phase := Phase.paused }

/-- `resumeDemo` (lines 322-328): clear the paused flag, resume the engine
and set the typing state class.  No rotation timer is scheduled here; the
source comment reads: auto-rotation will resume after current typing
completes. -/
def resumeDemo (ω : Oracle) (c : CtrlState) : CtrlState :=
  let c1 : CtrlState := { c with isPaused := false, engine := resume ω c.engine }
  { c1 with phase := Phase.typing }

/-! ## Concrete states and oracles used to instantiate the theorems -/

/-- An oracle whose threshold draws all come out at 1, never hitting a
pause or error chance below 1. -/
def oracleNoErr : Oracle := fun _ => { rSpeed := 0, rPause := 1, rError := 1, rWrong := 0 }

/-- An oracle whose draws are all 0: with `errorChance = 1` every
non-newline character enters error simulation, and the wrong character is
`wrongChars[0]`. -/
def oracleForce : Oracle := fun _ => { rSpeed := 0, rPause := 0, rError := 0, rWrong := 0 }

/-- A fresh engine with the default constructor options. -/
def engineDefault : EngineState := newEngine {}

/-- A fresh engine with the pause and error chances set to zero, as the
deterministic scenarios of the specification configure them. -/
def engineZeroChance : EngineState := newEngine { pauseChance := 0, errorChance := 0 }

/-- A fresh engine with `errorChance` forced to 1 (and no thinking
pauses). -/
def engineForced : EngineState := newEngine { pauseChance := 0, errorChance := 1 }

/-- The engine state right after `typeText('ab')` on a fresh engine: the
first character has been emitted synchronously and the step for index 1 is
scheduled. -/
def c2run : EngineState := (typeText engineZeroChance oracleNoErr ['a', 'b'] "javascript").1

/-- The same session after `pause()` then `resume()`. -/
def c2stuck : EngineState := resume oracleNoErr (pause c2run)

/-- An engine mid-session: one character of `'ab'` emitted, the next step
scheduled, promise still pending. -/
def engineMid : EngineState :=
  { engineDefault with isTyping := true, output := ['a'],
                       currentTimeout := some (Pending.typeStep ['a', 'b'] 1 50) }

/-- An engine mid-session over the text `'xy'`, used to instantiate the
stop-cancellation theorem. -/
def engineMidStop : EngineState :=
  { engineDefault with isTyping := true, output := ['x'],
                       currentTimeout := some (Pending.typeStep ['x', 'y'] 1 50) }

/-- A fresh engine with an activated session and nothing emitted yet. -/
def engineStarted : EngineState := { engineZeroChance with isTyping := true }

/-- A sample snippet. -/
def snippetA : Snippet := { id := "alpha", title := "Alpha", language := "javascript", code := ['a'] }

/-- A second sample snippet. -/
def snippetB : Snippet := { id := "beta", title := "Beta", language := "javascript", code := ['b'] }

/-- A controller over two snippets in its initial state. -/
def ctrlBase : CtrlState :=
  { opts := {}, snippets := [snippetA, snippetB], currentSnippetIndex := JsNum.int 0,
    isTyping := false, isPaused := false, isUserInteracting := false,
    autoRotateTimer := none, typingCompleteTimer := none, phase := Phase.idle,
    engine := engineDefault }

/-- A controller whose engine is mid-session on the first snippet. -/
def ctrlMidTyping : CtrlState :=
  { ctrlBase with isTyping := true, phase := Phase.typing, engine := engineMid }

/-- A controller in the completed phase waiting on the hold timer. -/
def ctrlWaiting : CtrlState :=
  { ctrlBase with phase := Phase.completed, typingCompleteTimer := some 5000,
                  engine := { engineDefault with resolved := true } }

/-- A controller with an empty snippet list. -/
def ctrlEmpty : CtrlState := { ctrlBase with snippets := [] }

/-- A controller with exactly one snippet. -/
def ctrlOne : CtrlState := { ctrlBase with snippets := [snippetA] }

/-- The index invariant stated by the specification:
`0 <= currentIndex < snippetCount`, which in particular requires the index
to be an integer. -/
def indexInvariant (i : JsNum) (count : Nat) : Prop :=
  ∃ n : ℤ, i = JsNum.int n ∧ 0 ≤ n ∧ n < (count : ℤ)

/-! ## Helper lemmas -/

theorem take_concat_getD (l : List Char) (n : Nat) (h : n < l.length) :
    l.take n ++ [l.getD n ' '] = l.take (n + 1) := by
  rw [List.take_succ]
  congr 1
  rw [List.getD_eq_getElem?_getD, List.getElem?_eq_getElem h]
  rfl

theorem fireTimeout_noTimer (ω : Oracle) (s : EngineState) (h : s.currentTimeout = none) :
    fireTimeout ω s = s := by
  unfold fireTimeout
  rw [h]

theorem processChar_errorBranch (ω : Oracle) (text : List Char) (index : Nat) (s : EngineState)
    (h : (ω s.rand).rError < s.opts.errorChance ∧ text.getD index ' ' ≠ '\n') :
    processChar ω text index s =
      { s with rand := s.rand + 1,
               cues := (s.cues ++ classCues (text.getD index ' ')) ++ [Cue.keypress],
               output := s.output ++ [wrongCharOf (ω s.rand).rWrong],
               currentTimeout := some (Pending.errBackspace text index
                 (stepSpeed s.opts (ω s.rand) (text.getD index ' ')) s.opts.errorCorrectDelay) } := by
  simp only [processChar]
  rw [if_pos h]
  rfl

theorem processChar_normalBranch (ω : Oracle) (text : List Char) (index : Nat) (s : EngineState)
    (h : ¬((ω s.rand).rError < s.opts.errorChance ∧ text.getD index ' ' ≠ '\n')) :
    processChar ω text index s =
      { s with rand := s.rand + 1,
               cues := s.cues ++ classCues (text.getD index ' '),
               output := s.output ++ [text.getD index ' '],
               currentTimeout := some (Pending.typeStep text (index + 1)
                 (stepSpeed s.opts (ω s.rand) (text.getD index ' '))) } := by
  simp only [processChar]
  rw [if_neg h]

/-- The central invariant of one typing session: from any state with the
session active, not paused, and the rendered output equal to the typed
prefix, running the scheduled callbacks to quiescence resolves the promise
with the full source text rendered — whatever the oracle decides at each
character (direct emission or an error-simulation episode). -/
theorem typeChars_completes (ω : Oracle) (text : List Char) :
    ∀ (k index : Nat) (s : EngineState), text.length - index = k →
      s.isTyping = true → s.isPaused = false → s.output = text.take index →
      ∃ n : Nat,
        ((fireTimeout ω)^[n] (typeCharacters ω text index s)).resolved = true ∧
        ((fireTimeout ω)^[n] (typeCharacters ω text index s)).output = text ∧
        ((fireTimeout ω)^[n] (typeCharacters ω text index s)).isTyping = false := by
  intro k
  induction k with
  | zero =>
    intro index s hk hT hP hout
    have hlen : text.length ≤ index := by omega
    have hdone : typeCharacters ω text index s = completeTyping s := by
      unfold typeCharacters
      rw [if_neg (by simp [hT, hP]), if_pos hlen]
    refine ⟨0, ?_⟩
    rw [Function.iterate_zero_apply, hdone]
    refine ⟨rfl, ?_, rfl⟩
    show s.output = text
    rw [hout]
    exact List.take_of_length_le hlen
  | succ k ih =>
    intro index s hk hT hP hout
    have hlt : index < text.length := by omega
    have hstep : typeCharacters ω text index s = processChar ω text index s := by
      unfold typeCharacters
      rw [if_neg (by simp [hT, hP]), if_neg (by omega)]
    rw [hstep]
    by_cases herr : (ω s.rand).rError < s.opts.errorChance ∧ text.getD index ' ' ≠ '\n'
    · -- error-simulation episode: wrong character, backspace, correct character
      rw [processChar_errorBranch ω text index s herr]
      obtain ⟨m, hm⟩ := ih (index + 1)
        { s with rand := s.rand + 1,
                 cues := (((s.cues ++ classCues (text.getD index ' ')) ++ [Cue.keypress])
                   ++ [Cue.backspace]) ++ [Cue.keypress],
                 output := ((s.output ++ [wrongCharOf (ω s.rand).rWrong]).dropLast)
                   ++ [text.getD index ' '],
                 currentTimeout := none }
        (by omega) hT hP
        (by rw [List.dropLast_concat]; show s.output ++ _ = _; rw [hout]; exact take_concat_getD text index hlt)
      refine ⟨m + 3, ?_⟩
      have hiter :
          (fireTimeout ω)^[m + 3]
            { s with rand := s.rand + 1,
                     cues := (s.cues ++ classCues (text.getD index ' ')) ++ [Cue.keypress],
                     output := s.output ++ [wrongCharOf (ω s.rand).rWrong],
                     currentTimeout := some (Pending.errBackspace text index
                       (stepSpeed s.opts (ω s.rand) (text.getD index ' '))
                       s.opts.errorCorrectDelay) } =
          (fireTimeout ω)^[m] (typeCharacters ω text (index + 1)
            { s with rand := s.rand + 1,
                     cues := (((s.cues ++ classCues (text.getD index ' ')) ++ [Cue.keypress])
                       ++ [Cue.backspace]) ++ [Cue.keypress],
                     output := ((s.output ++ [wrongCharOf (ω s.rand).rWrong]).dropLast)
                       ++ [text.getD index ' '],
                     currentTimeout := none }) := by
        rw [show m + 3 = (m + 2) + 1 from rfl, Function.iterate_succ_apply]
        rw [show m + 2 = (m + 1) + 1 from rfl, Function.iterate_succ_apply]
        rw [Function.iterate_succ_apply]
        rfl
      rw [hiter]
      exact hm
    · -- direct emission
      rw [processChar_normalBranch ω text index s herr]
      obtain ⟨m, hm⟩ := ih (index + 1)
        { s with rand := s.rand + 1,
                 cues := s.cues ++ classCues (text.getD index ' '),
                 output := s.output ++ [text.getD index ' '],
                 currentTimeout := none }
        (by omega) hT hP
        (by show s.output ++ _ = _; rw [hout]; exact take_concat_getD text index hlt)
      refine ⟨m + 1, ?_⟩
      have hiter :
          (fireTimeout ω)^[m + 1]
            { s with rand := s.rand + 1,
                     cues := s.cues ++ classCues (text.getD index ' '),
                     output := s.output ++ [text.getD index ' '],
                     currentTimeout := some (Pending.typeStep text (index + 1)
                       (stepSpeed s.opts (ω s.rand) (text.getD index ' '))) } =
          (fireTimeout ω)^[m] (typeCharacters ω text (index + 1)
            { s with rand := s.rand + 1,
                     cues := s.cues ++ classCues (text.getD index ' '),
                     output := s.output ++ [text.getD index ' '],
                     currentTimeout := none }) := by
        rw [Function.iterate_succ_apply]
        rfl
      rw [hiter]
      exact hm

theorem fireHoldTimer_noTimer (ω : Oracle) (c : CtrlState) (h : c.typingCompleteTimer = none) :
    fireHoldTimer ω c = c := by
  unfold fireHoldTimer
  rw [h]

/-- `typeCurrentSnippet` called while the engine is still typing: the
snippet exists, the output element is cleared, but the inner `typeText`
rejects, so the catch sets the error state class and the finally clears
the controller typing flag — the engine session itself is left running. -/
theorem typeCurrentSnippet_engine_busy (ω : Oracle) (c : CtrlState) (sn : Snippet)
    (hT : c.engine.isTyping = true)
    (hsn : snippetAt c.snippets c.currentSnippetIndex = some sn) :
    typeCurrentSnippet ω c =
      { c with isTyping := false, phase := Phase.error,
               engine := { c.engine with output := [] } } := by
  unfold typeCurrentSnippet
  rw [hsn]
  have hrej : typeText { c.engine with output := [] } ω sn.code sn.language =
      ({ c.engine with output := [] }, some "Already typing") := by
    unfold typeText
    rw [if_pos hT]
  simp only [hrej]

/-! ## Claim theorems -/

/-- C1: for every non-empty source text, a `typeText` run started with no
active session that then runs to completion without `stop()` or a new run
intervening does not reject, and when its promise resolves the output
sink text equals the source text exactly — for every outcome of the
random draws, in particular every error-simulation episode (wrong
character appended, removed, correct character emitted) nets to the
original string. -/
theorem c1_completion_invariant (text : List Char) (_hne : text ≠ []) (ω : Oracle)
    (s : EngineState) (hidle : s.isTyping = false) (lang : String) :
    (typeText s ω text lang).2 = none ∧
    ∃ n : Nat,
      ((fireTimeout ω)^[n] (typeText s ω text lang).1).resolved = true ∧
      ((fireTimeout ω)^[n] (typeText s ω text lang).1).output = text := by
  have hrun : typeText s ω text lang =
      (typeCharacters ω text 0
        { s with isTyping := true, isPaused := false, resolved := false,
                 output := [], language := lang }, none) := by
    unfold typeText
    rw [if_neg (by simp [hidle])]
  rw [hrun]
  refine ⟨rfl, ?_⟩
  obtain ⟨n, h1, h2, h3⟩ := typeChars_completes ω text text.length 0
    { s with isTyping := true, isPaused := false, resolved := false,
             output := [], language := lang } rfl rfl rfl rfl
  exact ⟨n, h1, h2⟩

/-- C1 witness: `errorChance = 1` forced on the single-character text `x`
(the oracle draws 0 at every threshold, so the error branch is taken). -/
theorem c1_witness :
    (['x'] : List Char) ≠ [] ∧ engineForced.isTyping = false ∧
    ((typeText engineForced oracleForce ['x'] "javascript").2 = none ∧
      ∃ n : Nat,
        ((fireTimeout oracleForce)^[n]
          (typeText engineForced oracleForce ['x'] "javascript").1).resolved = true ∧
        ((fireTimeout oracleForce)^[n]
          (typeText engineForced oracleForce ['x'] "javascript").1).output = ['x']) :=
  ⟨by decide, rfl,
    c1_completion_invariant ['x'] (by decide) oracleForce engineForced rfl "javascript"⟩

/-- C2 (code bug at the failing input): `resume()` reads `this.targetText`,
which only `typeWithCursor` assigns — `typeText` never does.  After
`typeText` on the text `ab` emits its first character, `pause()` followed
by `resume()` leaves the session active and unpaused but with no
scheduled callback: the output stays at `a`, the promise never resolves,
and no amount of elapsed time makes further progress — against the stated
property (and against the source comment in `resume()`: resume typing
from current position). -/
theorem c2_resume_drops_session :
    (typeText engineZeroChance oracleNoErr ['a', 'b'] "javascript").2 = none ∧
    c2run.output = ['a'] ∧ c2run.isTyping = true ∧ c2run.targetText = none ∧
    c2stuck.isTyping = true ∧ c2stuck.isPaused = false ∧
    c2stuck.currentTimeout = none ∧ c2stuck.resolved = false ∧ c2stuck.output = ['a'] ∧
    ∀ n : Nat, (fireTimeout oracleNoErr)^[n] c2stuck = c2stuck := by
  refine ⟨by decide, by decide, by decide, by decide, by decide, by decide, by decide,
    by decide, by decide, fun n => Function.iterate_fixed ?_ n⟩
  exact fireTimeout_noTimer oracleNoErr c2stuck (by decide)

/-- C4: calling `typeText` while a session is active rejects with the
`Already typing` error and returns with the engine state untouched — the
output, pending timer, pause flag and the registered promise callbacks of
the running session are exactly as before — and the running session still
completes normally with its own text. -/
theorem c4_run_while_active (s : EngineState) (ω ω2 : Oracle) (text text0 : List Char)
    (lang : String) (i : Nat) (d : ℚ)
    (hT : s.isTyping = true) (hP : s.isPaused = false)
    (hpend : s.currentTimeout = some (Pending.typeStep text0 i d))
    (hout : s.output = text0.take i) :
    typeText s ω text lang = (s, some "Already typing") ∧
    ∃ n : Nat, ((fireTimeout ω2)^[n] s).resolved = true ∧
      ((fireTimeout ω2)^[n] s).output = text0 := by
  constructor
  · unfold typeText
    rw [if_pos hT]
  · have h1 : fireTimeout ω2 s = typeCharacters ω2 text0 i { s with currentTimeout := none } := by
      unfold fireTimeout
      rw [hpend]
    obtain ⟨n, hr, ho, hi⟩ := typeChars_completes ω2 text0 (text0.length - i) i
      { s with currentTimeout := none } rfl hT hP hout
    refine ⟨n + 1, ?_, ?_⟩
    · rw [Function.iterate_succ_apply, h1]
      exact hr
    · rw [Function.iterate_succ_apply, h1]
      exact ho

/-- C4 witness: a second `typeText` call on a concrete mid-session engine
rejects and the running session still finishes with its own text. -/
theorem c4_witness :
    engineMid.isTyping = true ∧ engineMid.isPaused = false ∧
    engineMid.currentTimeout = some (Pending.typeStep ['a', 'b'] 1 50) ∧
    engineMid.output = (['a', 'b'] : List Char).take 1 ∧
    (typeText engineMid oracleNoErr ['c'] "javascript" = (engineMid, some "Already typing") ∧
      ∃ n : Nat, ((fireTimeout oracleNoErr)^[n] engineMid).resolved = true ∧
        ((fireTimeout oracleNoErr)^[n] engineMid).output = ['a', 'b']) :=
  ⟨rfl, rfl, rfl, rfl,
    c4_run_while_active engineMid oracleNoErr oracleNoErr ['c'] ['a', 'b'] "javascript" 1 50
      rfl rfl rfl rfl⟩

/-- C5: after `stop()` on a session whose promise is still pending, the
promise is never resolved, no further character is emitted, no further
cue (in particular no completion cue) is fired, and therefore no
post-completion hold timer can ever be scheduled on behalf of the
cancelled run — no matter how far time advances, the stopped state is a
fixed point of the event loop. -/
theorem c5_stop_cancels (s : EngineState) (ω : Oracle) (h : s.resolved = false) :
    (stop s).resolved = false ∧ (stop s).output = s.output ∧ (stop s).cues = s.cues ∧
    ∀ n : Nat, (fireTimeout ω)^[n] (stop s) = stop s := by
  refine ⟨h, rfl, rfl, fun n => Function.iterate_fixed ?_ n⟩
  exact fireTimeout_noTimer ω (stop s) rfl

/-- C5 witness: stopping a concrete mid-session engine freezes it forever. -/
theorem c5_witness :
    engineMidStop.resolved = false ∧
    ((stop engineMidStop).resolved = false ∧
      (stop engineMidStop).output = engineMidStop.output ∧
      (stop engineMidStop).cues = engineMidStop.cues ∧
      ∀ n : Nat, (fireTimeout oracleNoErr)^[n] (stop engineMidStop) = stop engineMidStop) :=
  ⟨rfl, c5_stop_cancels engineMidStop oracleNoErr rfl⟩

/-- C8 (amended): in a direct (non-error-simulation) emission step, the
cues fired are exactly the classification cues: a newline fires the enter
cue, a space, a character of the punctuation class `. ! ? ;` and an ASCII
uppercase letter fire no cue at all, and every other character fires
exactly one keypress cue. -/
theorem c8_emission_cues (ω : Oracle) (text : List Char) (index : Nat) (s : EngineState)
    (hnoerr : ¬((ω s.rand).rError < s.opts.errorChance ∧ text.getD index ' ' ≠ '\n')) :
    (processChar ω text index s).cues = s.cues ++
      (if text.getD index ' ' = '\n' then [Cue.enter]
       else if text.getD index ' ' = ' ' then []
       else if text.getD index ' ' = '.' ∨ text.getD index ' ' = '!' ∨
              text.getD index ' ' = '?' ∨ text.getD index ' ' = ';' then []
       else if 'A' ≤ text.getD index ' ' ∧ text.getD index ' ' ≤ 'Z' then []
       else [Cue.keypress]) := by
  rw [processChar_normalBranch ω text index s hnoerr]
  rfl

/-- C8 witness: a direct emission of the plain character `z` fires exactly
one keypress cue. -/
theorem c8_witness :
    (¬((oracleNoErr engineStarted.rand).rError < engineStarted.opts.errorChance ∧
        ((['z'] : List Char).getD 0 ' ') ≠ '\n')) ∧
    (processChar oracleNoErr ['z'] 0 engineStarted).cues = [Cue.keypress] := by
  refine ⟨by decide, ?_⟩
  have h := c8_emission_cues oracleNoErr ['z'] 0 engineStarted (by decide)
  rw [h]
  decide

/-- C8 counterexample: a direct emission of the space character appends
the character to the output but fires no cue at all — in particular no
keypress cue. -/
theorem c8_counterexample :
    (processChar oracleNoErr [' '] 0 engineStarted).output = [' '] ∧
    (processChar oracleNoErr [' '] 0 engineStarted).cues = [] :=
  ⟨by decide, by decide⟩

/-- C3 (amended): with a typing session in flight, `nextSnippet` and
`previousSnippet` cancel both rotation timers and move the index modulo
the snippet count (wrapping in both directions), then immediately call
`typeCurrentSnippet` — but the in-flight engine session is NOT stopped
first: the inner `typeText` rejects, the controller catches the rejection
and ends in the Error phase, while the old session keeps its pending
timer and typing flag (and now types into the cleared output). -/
theorem c3_navigation_mid_typing (c : CtrlState) (ω : Oracle) (sn sp : Snippet)
    (hT : c.engine.isTyping = true)
    (hn : snippetAt c.snippets
      (jsMod (jsAdd c.currentSnippetIndex 1) (c.snippets.length : ℤ)) = some sn)
    (hp : snippetAt c.snippets
      (if c.currentSnippetIndex = JsNum.int 0 then JsNum.int ((c.snippets.length : ℤ) - 1)
       else jsSub c.currentSnippetIndex 1) = some sp) :
    ((nextSnippet ω c).autoRotateTimer = none ∧
     (nextSnippet ω c).typingCompleteTimer = none ∧
     (nextSnippet ω c).currentSnippetIndex =
       jsMod (jsAdd c.currentSnippetIndex 1) (c.snippets.length : ℤ) ∧
     (nextSnippet ω c).phase = Phase.error ∧
     (nextSnippet ω c).isTyping = false ∧
     (nextSnippet ω c).engine.isTyping = true ∧
     (nextSnippet ω c).engine.currentTimeout = c.engine.currentTimeout ∧
     (nextSnippet ω c).engine.output = []) ∧
    ((previousSnippet ω c).autoRotateTimer = none ∧
     (previousSnippet ω c).typingCompleteTimer = none ∧
     (previousSnippet ω c).currentSnippetIndex =
       (if c.currentSnippetIndex = JsNum.int 0 then JsNum.int ((c.snippets.length : ℤ) - 1)
        else jsSub c.currentSnippetIndex 1) ∧
     (previousSnippet ω c).phase = Phase.error ∧
     (previousSnippet ω c).engine.isTyping = true ∧
     (previousSnippet ω c).engine.currentTimeout = c.engine.currentTimeout) := by
  have hnext : nextSnippet ω c =
      { c with autoRotateTimer := none, typingCompleteTimer := none,
               currentSnippetIndex :=
                 jsMod (jsAdd c.currentSnippetIndex 1) (c.snippets.length : ℤ),
               isTyping := false, phase := Phase.error,
               engine := { c.engine with output := [] } } :=
    typeCurrentSnippet_engine_busy ω
      { c with autoRotateTimer := none, typingCompleteTimer := none,
               currentSnippetIndex :=
                 jsMod (jsAdd c.currentSnippetIndex 1) (c.snippets.length : ℤ) }
      sn hT hn
  have hprev : previousSnippet ω c =
      { c with autoRotateTimer := none, typingCompleteTimer := none,
               currentSnippetIndex :=
                 (if c.currentSnippetIndex = JsNum.int 0 then
                   JsNum.int ((c.snippets.length : ℤ) - 1)
                  else jsSub c.currentSnippetIndex 1),
               isTyping := false, phase := Phase.error,
               engine := { c.engine with output := [] } } :=
    typeCurrentSnippet_engine_busy ω
      { c with autoRotateTimer := none, typingCompleteTimer := none,
               currentSnippetIndex :=
                 (if c.currentSnippetIndex = JsNum.int 0 then
                   JsNum.int ((c.snippets.length : ℤ) - 1)
                  else jsSub c.currentSnippetIndex 1) }
      sp hT hp
  rw [hnext, hprev]
  exact ⟨⟨rfl, rfl, rfl, rfl, rfl, hT, rfl, rfl⟩, ⟨rfl, rfl, rfl, rfl, hT, rfl⟩⟩

/-- C3 witness: a concrete controller mid-typing, navigated in both
directions. -/
theorem c3_witness :
    ctrlMidTyping.engine.isTyping = true ∧
    snippetAt ctrlMidTyping.snippets
      (jsMod (jsAdd ctrlMidTyping.currentSnippetIndex 1)
        (ctrlMidTyping.snippets.length : ℤ)) = some snippetB ∧
    snippetAt ctrlMidTyping.snippets
      (if ctrlMidTyping.currentSnippetIndex = JsNum.int 0 then
        JsNum.int ((ctrlMidTyping.snippets.length : ℤ) - 1)
       else jsSub ctrlMidTyping.currentSnippetIndex 1) = some snippetB ∧
    (((nextSnippet oracleNoErr ctrlMidTyping).autoRotateTimer = none ∧
      (nextSnippet oracleNoErr ctrlMidTyping).typingCompleteTimer = none ∧
      (nextSnippet oracleNoErr ctrlMidTyping).currentSnippetIndex =
        jsMod (jsAdd ctrlMidTyping.currentSnippetIndex 1)
          (ctrlMidTyping.snippets.length : ℤ) ∧
      (nextSnippet oracleNoErr ctrlMidTyping).phase = Phase.error ∧
      (nextSnippet oracleNoErr ctrlMidTyping).isTyping = false ∧
      (nextSnippet oracleNoErr ctrlMidTyping).engine.isTyping = true ∧
      (nextSnippet oracleNoErr ctrlMidTyping).engine.currentTimeout =
        ctrlMidTyping.engine.currentTimeout ∧
      (nextSnippet oracleNoErr ctrlMidTyping).engine.output = []) ∧
     ((previousSnippet oracleNoErr ctrlMidTyping).autoRotateTimer = none ∧
      (previousSnippet oracleNoErr ctrlMidTyping).typingCompleteTimer = none ∧
      (previousSnippet oracleNoErr ctrlMidTyping).currentSnippetIndex =
        (if ctrlMidTyping.currentSnippetIndex = JsNum.int 0 then
          JsNum.int ((ctrlMidTyping.snippets.length : ℤ) - 1)
         else jsSub ctrlMidTyping.currentSnippetIndex 1) ∧
      (previousSnippet oracleNoErr ctrlMidTyping).phase = Phase.error ∧
      (previousSnippet oracleNoErr ctrlMidTyping).engine.isTyping = true ∧
      (previousSnippet oracleNoErr ctrlMidTyping).engine.currentTimeout =
        ctrlMidTyping.engine.currentTimeout)) :=
  ⟨rfl, by decide, by decide,
    c3_navigation_mid_typing ctrlMidTyping oracleNoErr snippetB snippetB
      rfl (by decide) (by decide)⟩

/-- C3 counterexample: navigating a concrete controller whose engine is
mid-typing leaves the controller in the Error phase, against the stated
property that navigation never does. -/
theorem c3_counterexample :
    (nextSnippet oracleNoErr ctrlMidTyping).phase = Phase.error ∧
    (nextSnippet oracleNoErr ctrlMidTyping).engine.isTyping = true := by
  exact ⟨by decide, by decide⟩

/-- C6 (amended): for a controller in the Completed phase waiting on the
hold timer (engine idle), `pauseDemo` cancels the hold timer, so advancing
time while paused never auto-advances the index; but a subsequent
`resumeDemo` does NOT reschedule a hold delay — it merely re-enters the
typing phase, no hold timer exists afterwards, and no auto-advance ever
occurs until some later typing completion schedules a rotation again. -/
theorem c6_pause_resume_completed (c : CtrlState) (ω : Oracle)
    (_hT : c.engine.isTyping = false) (_hheld : c.typingCompleteTimer.isSome = true)
    (_hphase : c.phase = Phase.completed) :
    (pauseDemo c).typingCompleteTimer = none ∧
    (pauseDemo c).autoRotateTimer = none ∧
    (pauseDemo c).phase = Phase.paused ∧
    (∀ n : Nat, (fireHoldTimer ω)^[n] (pauseDemo c) = pauseDemo c) ∧
    (resumeDemo ω (pauseDemo c)).typingCompleteTimer = none ∧
    (resumeDemo ω (pauseDemo c)).autoRotateTimer = none ∧
    (resumeDemo ω (pauseDemo c)).phase = Phase.typing ∧
    (resumeDemo ω (pauseDemo c)).currentSnippetIndex = c.currentSnippetIndex ∧
    (∀ n : Nat, (fireHoldTimer ω)^[n] (resumeDemo ω (pauseDemo c)) =
      resumeDemo ω (pauseDemo c)) := by
  refine ⟨rfl, rfl, rfl,
    fun n => Function.iterate_fixed (fireHoldTimer_noTimer ω _ rfl) n,
    rfl, rfl, rfl, rfl,
    fun n => Function.iterate_fixed (fireHoldTimer_noTimer ω _ rfl) n⟩

/-- C6 witness: the concrete completed-and-waiting controller. -/
theorem c6_witness :
    ctrlWaiting.engine.isTyping = false ∧
    ctrlWaiting.typingCompleteTimer.isSome = true ∧
    ctrlWaiting.phase = Phase.completed ∧
    ((pauseDemo ctrlWaiting).typingCompleteTimer = none ∧
     (pauseDemo ctrlWaiting).autoRotateTimer = none ∧
     (pauseDemo ctrlWaiting).phase = Phase.paused ∧
     (∀ n : Nat, (fireHoldTimer oracleNoErr)^[n] (pauseDemo ctrlWaiting) =
       pauseDemo ctrlWaiting) ∧
     (resumeDemo oracleNoErr (pauseDemo ctrlWaiting)).typingCompleteTimer = none ∧
     (resumeDemo oracleNoErr (pauseDemo ctrlWaiting)).autoRotateTimer = none ∧
     (resumeDemo oracleNoErr (pauseDemo ctrlWaiting)).phase = Phase.typing ∧
     (resumeDemo oracleNoErr (pauseDemo ctrlWaiting)).currentSnippetIndex =
       ctrlWaiting.currentSnippetIndex ∧
     (∀ n : Nat, (fireHoldTimer oracleNoErr)^[n]
       (resumeDemo oracleNoErr (pauseDemo ctrlWaiting)) =
       resumeDemo oracleNoErr (pauseDemo ctrlWaiting))) :=
  ⟨rfl, rfl, rfl, c6_pause_resume_completed ctrlWaiting oracleNoErr rfl rfl rfl⟩

/-- C6 counterexample: on the concrete completed-and-waiting controller,
after `pauseDemo` then `resumeDemo` no hold timer is scheduled at all, and
however far time advances the index never auto-advances — against the
stated property that resuming reschedules a fresh full-length hold delay
after which auto-advance occurs. -/
theorem c6_counterexample :
    ctrlWaiting.typingCompleteTimer = some 5000 ∧
    (resumeDemo oracleNoErr (pauseDemo ctrlWaiting)).typingCompleteTimer = none ∧
    ∀ n : Nat, ((fireHoldTimer oracleNoErr)^[n]
      (resumeDemo oracleNoErr (pauseDemo ctrlWaiting))).currentSnippetIndex =
      JsNum.int 0 := by
  refine ⟨rfl, rfl, fun n => ?_⟩
  rw [Function.iterate_fixed (fireHoldTimer_noTimer oracleNoErr _ rfl) n]
  rfl

/-- C7 (amended): `startDemo` on a controller with zero snippets refuses
to start — it logs a warning and returns normally with the state
unchanged; no error of any kind is surfaced to the caller. -/
theorem c7_empty_start_refuses (c : CtrlState) (ω : Oracle) (h : c.snippets = []) :
    startDemo ω c = (c, none) := by
  unfold startDemo
  rw [if_pos (by rw [h]; rfl)]

/-- C7 witness: the concrete empty controller. -/
theorem c7_witness :
    ctrlEmpty.snippets = [] ∧ startDemo oracleNoErr ctrlEmpty = (ctrlEmpty, none) :=
  ⟨rfl, c7_empty_start_refuses ctrlEmpty oracleNoErr rfl⟩

/-- C7 counterexample: on the concrete empty controller `startDemo`
surfaces no error — the call returns normally with the state unchanged,
against the stated property that an InvalidStateError is surfaced
synchronously. -/
theorem c7_counterexample :
    (startDemo oracleNoErr ctrlEmpty).2 = none ∧
    (startDemo oracleNoErr ctrlEmpty).1 = ctrlEmpty :=
  ⟨rfl, rfl⟩

/-- C9: for every controller with at least one snippet and every index
outside `0 ≤ index < snippetCount`, `setSnippet` is a complete no-op: the
returned state is the argument state — the index is unchanged, no timer
is cancelled or scheduled, no session is stopped or started, and no error
is raised (the function is total). -/
theorem c9_jumpTo_out_of_range (c : CtrlState) (ω : Oracle) (index : ℤ)
    (_hcount : 1 ≤ c.snippets.length)
    (hout : index < 0 ∨ (c.snippets.length : ℤ) ≤ index) :
    setSnippet ω c index = c := by
  unfold setSnippet
  rw [if_neg]
  intro hc
  rcases hout with h | h <;> omega

/-- C9 witness: `setSnippet (-1)` and, via the theorem at the upper bound,
`setSnippet snippetCount` on a one-snippet controller change nothing. -/
theorem c9_witness :
    1 ≤ ctrlOne.snippets.length ∧
    ((-1 : ℤ) < 0 ∨ ((ctrlOne.snippets.length : ℤ) ≤ -1)) ∧
    setSnippet oracleNoErr ctrlOne (-1) = ctrlOne ∧
    setSnippet oracleNoErr ctrlOne (ctrlOne.snippets.length : ℤ) = ctrlOne :=
  ⟨by decide, Or.inl (by decide),
    c9_jumpTo_out_of_range ctrlOne oracleNoErr (-1) (by decide) (Or.inl (by decide)),
    c9_jumpTo_out_of_range ctrlOne oracleNoErr (ctrlOne.snippets.length : ℤ)
      (by decide) (Or.inr (by decide))⟩

/-- C10: with an empty snippet list, `nextSnippet` computes the new index
as `(currentIndex + 1) % 0`, which is NaN, and `previousSnippet` (from
index 0) sets the index to `length - 1 = -1`; in both cases the index
invariant `0 ≤ currentIndex < snippetCount` is violated instead of the
call being rejected or ignored, and the subsequent `typeCurrentSnippet`
silently does nothing — engine, phase and typing flag are untouched —
because no snippet exists at that index. -/
theorem c10_empty_list_navigation (c : CtrlState) (ω : Oracle)
    (h : c.snippets = []) (h0 : c.currentSnippetIndex = JsNum.int 0) :
    (nextSnippet ω c).currentSnippetIndex = JsNum.nan ∧
    (previousSnippet ω c).currentSnippetIndex = JsNum.int (-1) ∧
    ¬ indexInvariant (nextSnippet ω c).currentSnippetIndex c.snippets.length ∧
    ¬ indexInvariant (previousSnippet ω c).currentSnippetIndex c.snippets.length ∧
    (nextSnippet ω c).engine = c.engine ∧ (nextSnippet ω c).phase = c.phase ∧
    (nextSnippet ω c).isTyping = c.isTyping ∧
    (previousSnippet ω c).engine = c.engine ∧ (previousSnippet ω c).phase = c.phase ∧
    (previousSnippet ω c).isTyping = c.isTyping := by
  rcases c with ⟨o, snips, idx, t, p, u, art, tct, ph, eng⟩
  simp only at h h0
  subst h
  subst h0
  exact ⟨rfl, rfl,
    by rintro ⟨n, hn, h1, h2⟩; exact JsNum.noConfusion hn,
    by rintro ⟨n, hn, h1, h2⟩; rw [show n = -1 from (JsNum.int.injEq n (-1) ▸ hn.symm :)] at h1; omega,
    rfl, rfl, rfl, rfl, rfl, rfl⟩

/-- C10 witness: the concrete empty controller. -/
theorem c10_witness :
    ctrlEmpty.snippets = [] ∧ ctrlEmpty.currentSnippetIndex = JsNum.int 0 ∧
    ((nextSnippet oracleNoErr ctrlEmpty).currentSnippetIndex = JsNum.nan ∧
     (previousSnippet oracleNoErr ctrlEmpty).currentSnippetIndex = JsNum.int (-1) ∧
     ¬ indexInvariant (nextSnippet oracleNoErr ctrlEmpty).currentSnippetIndex
       ctrlEmpty.snippets.length ∧
     ¬ indexInvariant (previousSnippet oracleNoErr ctrlEmpty).currentSnippetIndex
       ctrlEmpty.snippets.length ∧
     (nextSnippet oracleNoErr ctrlEmpty).engine = ctrlEmpty.engine ∧
     (nextSnippet oracleNoErr ctrlEmpty).phase = ctrlEmpty.phase ∧
     (nextSnippet oracleNoErr ctrlEmpty).isTyping = ctrlEmpty.isTyping ∧
     (previousSnippet oracleNoErr ctrlEmpty).engine = ctrlEmpty.engine ∧
     (previousSnippet oracleNoErr ctrlEmpty).phase = ctrlEmpty.phase ∧
     (previousSnippet oracleNoErr ctrlEmpty).isTyping = ctrlEmpty.isTyping) :=
  ⟨rfl, rfl, c10_empty_list_navigation ctrlEmpty oracleNoErr rfl rfl⟩

end Dnc
